import Mathlib

/-!
Shallow embedding of the limn GUI toolkit sources relevant to the verified
claims: the scroll widget (`src/widgets/scroll.rs`), the ellipse drawable
(`src/draw/ellipse.rs`) and the WebRender adapter (`core/src/render.rs`).
Floating-point coordinates (`f32`/`f64`) are modelled by `ℚ`; all values
appearing in the claims are exactly representable, and the operations the
code performs on them (addition, multiplication by integer constants,
`min`/`max`, squaring, division) are exact at those values.
-/

namespace Limn

/-- 2-D point with rational coordinates, standing for both `util::Point`
(`f64` fields, scroll code) and the layout `Point` (`f32` fields, draw code). -/
structure Point where
  x : ℚ
  y : ℚ
deriving DecidableEq, Repr

instance : Add Point := ⟨fun a b => ⟨a.x + b.x, a.y + b.y⟩⟩

/-- `Point * scalar`, as used in `self.offset + scroll * 13.0`. -/
instance : HMul Point ℚ Point := ⟨fun p k => ⟨p.x * k, p.y * k⟩⟩

@[simp] theorem Point.add_x (a b : Point) : (a + b).x = a.x + b.x := rfl

@[simp] theorem Point.add_y (a b : Point) : (a + b).y = a.y + b.y := rfl

@[simp] theorem Point.mul_x (p : Point) (k : ℚ) : (p * k).x = p.x * k := rfl

@[simp] theorem Point.mul_y (p : Point) (k : ℚ) : (p * k).y = p.y * k := rfl

def Point.new (x y : ℚ) : Point := ⟨x, y⟩

/-- 2-D size, standing for the layout `Size` (`f32` fields). -/
structure Size where
  width : ℚ
  height : ℚ
deriving DecidableEq, Repr

def Size.new (w h : ℚ) : Size := ⟨w, h⟩

/-- Axis-aligned rectangle in origin/size form, standing for the
`webrender`/`euclid` `Rect` used by the draw code. -/
structure Rect where
  origin : Point
  size : Size
deriving DecidableEq, Repr

def Rect.new (origin : Point) (size : Size) : Rect := ⟨origin, size⟩

def Rect.left (r : Rect) : ℚ := r.origin.x

def Rect.top (r : Rect) : ℚ := r.origin.y

def Rect.width (r : Rect) : ℚ := r.size.width

def Rect.height (r : Rect) : ℚ := r.size.height

/-- Round a coordinate to the nearest integer (the device-pixel grid). -/
def roundQ (q : ℚ) : ℚ := ((round q : ℤ) : ℚ)

/-- Modelled from the spec: the geometry helper `Rect::round` (provided by the
external `euclid` crate, not part of `src/`) rounds the rectangle "to the
nearest representable device pixel": both corners are rounded to the nearest
integer coordinates. -/
def Rect.round (r : Rect) : Rect :=
  let l := roundQ r.left
  let t := roundQ r.top
  let rgt := roundQ (r.left + r.width)
  let bot := roundQ (r.top + r.height)
  ⟨⟨l, t⟩, ⟨rgt - l, bot - t⟩⟩

/-- Modelled from the spec: the geometry "shrink" helper
(`RectExt::shrink_bounds`, declared in the toolkit's geometry module which is
not under `src/`): shrinks the bounds symmetrically by the given amount,
moving the origin in by half the amount on each axis and reducing each
dimension by the full amount. -/
def Rect.shrink_bounds (r : Rect) (amount : ℚ) : Rect :=
  ⟨⟨r.origin.x + amount / 2, r.origin.y + amount / 2⟩,
   ⟨r.size.width - amount, r.size.height - amount⟩⟩

/-- Axis-aligned rectangle in left/top/width/height form, standing for
`util::Rectangle` used by the scroll code. -/
structure Rectangle where
  left : ℚ
  top : ℚ
  width : ℚ
  height : ℚ
deriving DecidableEq, Repr

/-! ## `src/draw/ellipse.rs` -/

/-- Opaque colour values; the draw code only moves them around. -/
abbrev Color := ℕ

/-- The ellipse drawable's state (`component_style!` struct `EllipseState`):
a background colour and an optional `(width, colour)` border. -/
structure EllipseState where
  background_color : Color
  border : Option (ℚ × Color)
deriving DecidableEq, Repr

/-- `point_inside_ellipse`: whether the point satisfies the ellipse equation
`((x-cx)/rx)^2 + ((y-cy)/ry)^2 <= 1`. -/
def point_inside_ellipse (point : Point) (center : Point) (radius : Size) : Bool :=
  decide ((point.x - center.x) ^ 2 / radius.width ^ 2 +
          (point.y - center.y) ^ 2 / radius.height ^ 2 ≤ 1)

/-- `cursor_hit`: hit-test the cursor against the ellipse inscribed in
`bounds` (centre at the centre of `bounds`, radii half its dimensions). -/
def cursor_hit (bounds : Rect) (cursor : Point) : Bool :=
  let radius : Size := Size.new (bounds.width / 2) (bounds.height / 2)
  let center : Point := Point.new (bounds.left + radius.width) (bounds.top + radius.height)
  point_inside_ellipse cursor center radius

/-- One display-list primitive as pushed by `push_ellipse`: a rectangle, its
clip rectangle (clipped to an inscribed ellipse) and a colour. -/
structure Primitive where
  rect : Rect
  clip_rect : Rect
  color : Color
deriving DecidableEq, Repr

/-- `push_ellipse`: builds the primitive pushed onto the display list. -/
def push_ellipse (rect : Rect) (clip_rect : Rect) (color : Color) : Primitive :=
  ⟨rect, clip_rect, color⟩

/-- `EllipseState::draw`, modelled as the list of primitives pushed, in
order. The incoming bounds are rounded first; with a border the fill is
pushed with the border colour and then the background clipped to the bounds
shrunk by the (at least 2.0 wide) border width. -/
def EllipseState.draw (s : EllipseState) (bounds : Rect) : List Primitive :=
  let bounds := bounds.round
  match s.border with
  | some (width, color) =>
      let width := if width < 2 then 2 else width
      [push_ellipse bounds bounds color,
       push_ellipse bounds (bounds.shrink_bounds width) s.background_color]
  | none =>
      [push_ellipse bounds bounds s.background_color]

/-! ## `src/widgets/scroll.rs` -/

/-- Opaque unique widget identifier (`resources::WidgetId`). -/
abbrev WidgetId := ℕ

/-- `glutin::MouseScrollDelta`: the raw wheel delta, either in lines or in
pixels. -/
inductive MouseScrollDelta where
  | lineDelta (x y : ℚ)
  | pixelDelta (x y : ℚ)
deriving DecidableEq, Repr

/-- `get_scroll`: converts a wheel delta to a point (both arms convert the
coordinates unchanged). -/
def get_scroll (event : MouseScrollDelta) : Point :=
  match event with
  | .lineDelta x y => Point.new x y
  | .pixelDelta x y => Point.new x y

/-- `WidgetScroll`: the typed scroll event the scroll parent forwards to its
child, carrying the raw wheel delta and the parent's current bounds. -/
structure WidgetScroll where
  event : MouseScrollDelta
  parent_bounds : Rectangle
deriving DecidableEq, Repr

/-- `WidgetScrollHandler`: per-child handler state, the accumulated scroll
offset. -/
structure WidgetScrollHandler where
  offset : Point
deriving DecidableEq, Repr

def WidgetScrollHandler.new : WidgetScrollHandler :=
  { offset := Point.new 0 0 }

/-- The layout edits `WidgetScrollHandler::handle` issues through
`update_layout`: the values suggested for the child's editable left/top
variables. -/
structure LayoutEdits where
  edit_left : ℚ
  edit_top : ℚ
deriving DecidableEq, Repr

/-- `f64::min` (total on the rationals; the scroll code never produces NaN
at these operations). -/
def f64_min (a b : ℚ) : ℚ := if a < b then a else b

/-- `f64::max` (total on the rationals; the scroll code never produces NaN
at these operations). -/
def f64_max (a b : ℚ) : ℚ := if a < b then b else a

theorem f64_min_eq_min (a b : ℚ) : f64_min a b = min a b := by
  unfold f64_min
  rcases lt_or_ge a b with h | h
  · rw [if_pos h, min_eq_left h.le]
  · rw [if_neg (not_lt.mpr h), min_eq_right h]

theorem f64_max_eq_max (a b : ℚ) : f64_max a b = max a b := by
  unfold f64_max
  rcases lt_or_ge a b with h | h
  · rw [if_pos h, max_eq_right h.le]
  · rw [if_neg (not_lt.mpr h), max_eq_left h]

/-- `WidgetScrollHandler::handle`: accumulate the (13×-scaled) wheel delta
into the offset, clamp each axis between `max_scroll` and `0`, and suggest
the parent origin plus the offset for the child's editable position.
`widget_bounds` stands for `args.widget.layout.bounds()`. -/
def WidgetScrollHandler.handle (s : WidgetScrollHandler) (ev : WidgetScroll)
    (widget_bounds : Rectangle) : WidgetScrollHandler × LayoutEdits :=
  let scroll := get_scroll ev.event
  let parent_bounds := ev.parent_bounds
  let max_scroll := Point.new (parent_bounds.width - widget_bounds.width)
                              (parent_bounds.height - widget_bounds.height)
  let offset0 := s.offset + scroll * (13 : ℚ)
  let ox := f64_min 0 (f64_max max_scroll.x offset0.x)
  let oy := f64_min 0 (f64_max max_scroll.y offset0.y)
  ({ offset := Point.new ox oy },
   { edit_left := parent_bounds.left + ox, edit_top := parent_bounds.top + oy })

/-- Handle a sequence of wheel events with fixed parent and widget bounds,
threading the handler state. -/
def handleEvents (parent_bounds widget_bounds : Rectangle)
    (events : List MouseScrollDelta) (s : WidgetScrollHandler) : WidgetScrollHandler :=
  events.foldl
    (fun st e => (st.handle ⟨e, parent_bounds⟩ widget_bounds).1) s

/-- `ScrollParentEvent`: the typed events the scroll parent handles. -/
inductive ScrollParentEvent where
  | childAttached (child_id : Option WidgetId)
  | widgetMouseWheel (mouse_wheel : MouseScrollDelta)
deriving DecidableEq, Repr

/-- `ScrollParent`: the scroll widget's handler state, the id of the
currently attached scrollable child if any. -/
structure ScrollParent where
  scrollable : Option WidgetId
deriving DecidableEq, Repr

def ScrollParent.new : ScrollParent :=
  { scrollable := none }

/-- A `WidgetScroll` event pushed with `Target::Widget(target)`. -/
structure PushedScroll where
  target : WidgetId
  event : WidgetScroll
deriving DecidableEq, Repr

/-- `ScrollParent::handle`, modelled as a fallible step: `none` is the
`panic!("Scroll parent has more than one child")`, `some` returns the new
state and the list of `WidgetScroll` events pushed. `widget_bounds` stands
for `args.widget.layout.bounds()`. -/
def ScrollParent.handle (s : ScrollParent) (event : ScrollParentEvent)
    (widget_bounds : Rectangle) : Option (ScrollParent × List PushedScroll) :=
  match event with
  | .childAttached child_id =>
      if s.scrollable.isSome then
        none
      else
        some ({ scrollable := child_id }, [])
  | .widgetMouseWheel mouse_wheel =>
      match s.scrollable with
      | some scrollable =>
          some (s, [{ target := scrollable,
                      event := { event := mouse_wheel, parent_bounds := widget_bounds } }])
      | none => some (s, [])

/-- Constraint strengths (`cassowary::strength`). -/
inductive Strength where
  | weak
  | medium
  | strong
  | required
deriving DecidableEq, Repr

/-- The layout constraint kinds `ScrollContainer::add_child` registers. -/
inductive ConstraintKind where
  | alignLeft
  | alignTop
deriving DecidableEq, Repr

/-- A constraint registered on the child, aligning it against the layout of
widget `parent` with the given strength. -/
structure Constraint where
  kind : ConstraintKind
  parent : WidgetId
  strength : Strength
deriving DecidableEq, Repr

/-- What `ScrollContainer::add_child` does, as data: the event pushed to the
parent, the constraints registered on the child, and whether a
`WidgetScrollHandler` was added to the child. -/
structure AddChildResult where
  pushedEvent : WidgetId × ScrollParentEvent
  constraints : List Constraint
  scrollHandlerAdded : Bool
deriving DecidableEq, Repr

/-- `ScrollContainer::add_child`: notify the parent that the child attached,
register weak align-left/align-top initial-position constraints against the
parent's layout, and install a `WidgetScrollHandler` on the child. -/
def ScrollContainer.add_child (parent child : WidgetId) : AddChildResult :=
  { pushedEvent := (parent, ScrollParentEvent.childAttached (some child)),
    constraints :=
      [{ kind := ConstraintKind.alignLeft, parent := parent, strength := Strength.weak },
       { kind := ConstraintKind.alignTop, parent := parent, strength := Strength.weak }],
    scrollHandlerAdded := true }

/-- `ScrollContainer::remove_child`: the event pushed to the parent. -/
def ScrollContainer.remove_child (parent : WidgetId) : WidgetId × ScrollParentEvent :=
  (parent, ScrollParentEvent.childAttached none)

/-- The closure `ScrollBuilder::new` registers for `WidgetMouseWheel` input
events: push a `ScrollParentEvent::WidgetMouseWheel` targeted at the widget
itself (`Target::Widget(args.widget.id)`). -/
def scrollBuilderWheelHandler (self_id : WidgetId) (event : MouseScrollDelta) :
    WidgetId × ScrollParentEvent :=
  (self_id, ScrollParentEvent.widgetMouseWheel event)

/-! ## `core/src/render.rs` -/

/-- `std::sync::atomic::Ordering`. -/
inductive AtomicOrdering where
  | relaxed
  | acquire
  | release
  | acqRel
  | seqCst
deriving DecidableEq, Repr

/-- Observable actions of the render adapter on shared state and the
external rasterizer, in program order. -/
inductive RenderOp where
  | atomicLoad (ord : AtomicOrdering) (value : Bool)
  | atomicStore (value : Bool) (ord : AtomicOrdering)
  | wakeupProxy
  | rendererUpdate
  | rendererRender
deriving DecidableEq, Repr

/-- `WebRenderContext::frame_ready`: load the frame-ready flag. The model
state is the current value of the shared `AtomicBool`; the result is the
returned boolean, the flag value after the call, and the trace of actions. -/
def WebRenderContext.frame_ready (flag : Bool) : Bool × Bool × List RenderOp :=
  (flag, flag, [RenderOp.atomicLoad AtomicOrdering.acquire flag])

/-- `WebRenderContext::update`: store `false` into the frame-ready flag,
then update and render via the rasterizer. Returns the flag value after the
call and the trace of actions. -/
def WebRenderContext.update (_flag : Bool) : Bool × List RenderOp :=
  (false, [RenderOp.atomicStore false AtomicOrdering.release,
           RenderOp.rendererUpdate, RenderOp.rendererRender])

/-- `Notifier::wake_up`: wake the event loop proxy, then store `true` into
the frame-ready flag. Returns the flag value after the call and the trace of
actions. -/
def Notifier.wake_up (_flag : Bool) : Bool × List RenderOp :=
  (true, [RenderOp.wakeupProxy,
          RenderOp.atomicStore true AtomicOrdering.release])

/-! ## Helper lemmas -/

/-- One `WidgetScrollHandler::handle` step leaves the x offset between
`max_scroll.x` and `0`, provided `max_scroll.x ≤ 0`. -/
theorem handle_offset_x_bounds (s : WidgetScrollHandler) (ev : WidgetScroll)
    (wb : Rectangle) (hx : ev.parent_bounds.width - wb.width ≤ 0) :
    ev.parent_bounds.width - wb.width ≤ ((s.handle ev wb).1).offset.x ∧
      ((s.handle ev wb).1).offset.x ≤ 0 := by
  unfold WidgetScrollHandler.handle
  simp only [Point.new, f64_min_eq_min, f64_max_eq_max]
  constructor
  · exact le_min hx (le_max_left _ _)
  · exact min_le_left _ _

/-- One `WidgetScrollHandler::handle` step leaves the y offset between
`max_scroll.y` and `0`, provided `max_scroll.y ≤ 0`. -/
theorem handle_offset_y_bounds (s : WidgetScrollHandler) (ev : WidgetScroll)
    (wb : Rectangle) (hy : ev.parent_bounds.height - wb.height ≤ 0) :
    ev.parent_bounds.height - wb.height ≤ ((s.handle ev wb).1).offset.y ∧
      ((s.handle ev wb).1).offset.y ≤ 0 := by
  unfold WidgetScrollHandler.handle
  simp only [Point.new, f64_min_eq_min, f64_max_eq_max]
  constructor
  · exact le_min hy (le_max_left _ _)
  · exact min_le_left _ _

/-- The clamping invariant is preserved along any sequence of wheel events
handled with fixed parent and widget bounds. -/
theorem handleEvents_offset_bounds (pb wb : Rectangle)
    (hx : pb.width - wb.width ≤ 0) (hy : pb.height - wb.height ≤ 0)
    (events : List MouseScrollDelta) (s : WidgetScrollHandler)
    (hs : (pb.width - wb.width ≤ s.offset.x ∧ s.offset.x ≤ 0) ∧
          (pb.height - wb.height ≤ s.offset.y ∧ s.offset.y ≤ 0)) :
    (pb.width - wb.width ≤ (handleEvents pb wb events s).offset.x ∧
      (handleEvents pb wb events s).offset.x ≤ 0) ∧
    (pb.height - wb.height ≤ (handleEvents pb wb events s).offset.y ∧
      (handleEvents pb wb events s).offset.y ≤ 0) := by
  induction events generalizing s with
  | nil => exact hs
  | cons e es ih =>
      simp only [handleEvents, List.foldl_cons] at *
      exact ih _ ⟨handle_offset_x_bounds _ _ _ hx, handle_offset_y_bounds _ _ _ hy⟩

/-! ## Claims -/

/-- Claim C1: over any sequence of wheel events handled by
`WidgetScrollHandler::handle` with fixed parent and widget bounds (the
parent no wider/taller than the widget, so that `[max_scroll, 0]` is a
non-degenerate interval), the accumulated offset stays clamped between
`max_scroll = parent dimension - widget dimension` and `0` independently on
each axis; in particular with parent width 100 and widget width 300, wheel
updates of -50 then -500 leave the x offset at exactly -200. -/
theorem scroll_offset_clamped :
    (∀ (pb wb : Rectangle) (events : List MouseScrollDelta),
        pb.width - wb.width ≤ 0 → pb.height - wb.height ≤ 0 →
        (pb.width - wb.width ≤ (handleEvents pb wb events WidgetScrollHandler.new).offset.x ∧
          (handleEvents pb wb events WidgetScrollHandler.new).offset.x ≤ 0) ∧
        (pb.height - wb.height ≤ (handleEvents pb wb events WidgetScrollHandler.new).offset.y ∧
          (handleEvents pb wb events WidgetScrollHandler.new).offset.y ≤ 0)) ∧
    (handleEvents ⟨0, 0, 100, 100⟩ ⟨0, 0, 300, 300⟩
        [MouseScrollDelta.pixelDelta (-50) 0, MouseScrollDelta.pixelDelta (-500) 0]
        WidgetScrollHandler.new).offset.x = -200 := by
  constructor
  · intro pb wb events hx hy
    exact handleEvents_offset_bounds pb wb hx hy events WidgetScrollHandler.new
      ⟨⟨hx, le_refl 0⟩, ⟨hy, le_refl 0⟩⟩
  · norm_num [handleEvents, WidgetScrollHandler.handle, WidgetScrollHandler.new,
      get_scroll, f64_min, f64_max, Point.new]

/-- Claim C1 witness: the clamping theorem applied at the concrete
parent/widget bounds of the spec's example. -/
theorem scroll_offset_clamped_witness :
    ((⟨0, 0, 100, 100⟩ : Rectangle).width - (⟨0, 0, 300, 300⟩ : Rectangle).width ≤ 0 ∧
     (⟨0, 0, 100, 100⟩ : Rectangle).height - (⟨0, 0, 300, 300⟩ : Rectangle).height ≤ 0) ∧
    (((⟨0, 0, 100, 100⟩ : Rectangle).width - (⟨0, 0, 300, 300⟩ : Rectangle).width ≤
        (handleEvents ⟨0, 0, 100, 100⟩ ⟨0, 0, 300, 300⟩
          [MouseScrollDelta.pixelDelta (-50) 0, MouseScrollDelta.pixelDelta (-500) 0]
          WidgetScrollHandler.new).offset.x ∧
      (handleEvents ⟨0, 0, 100, 100⟩ ⟨0, 0, 300, 300⟩
          [MouseScrollDelta.pixelDelta (-50) 0, MouseScrollDelta.pixelDelta (-500) 0]
          WidgetScrollHandler.new).offset.x ≤ 0) ∧
     ((⟨0, 0, 100, 100⟩ : Rectangle).height - (⟨0, 0, 300, 300⟩ : Rectangle).height ≤
        (handleEvents ⟨0, 0, 100, 100⟩ ⟨0, 0, 300, 300⟩
          [MouseScrollDelta.pixelDelta (-50) 0, MouseScrollDelta.pixelDelta (-500) 0]
          WidgetScrollHandler.new).offset.y ∧
      (handleEvents ⟨0, 0, 100, 100⟩ ⟨0, 0, 300, 300⟩
          [MouseScrollDelta.pixelDelta (-50) 0, MouseScrollDelta.pixelDelta (-500) 0]
          WidgetScrollHandler.new).offset.y ≤ 0)) :=
  ⟨⟨by norm_num, by norm_num⟩,
   scroll_offset_clamped.1 ⟨0, 0, 100, 100⟩ ⟨0, 0, 300, 300⟩
     [MouseScrollDelta.pixelDelta (-50) 0, MouseScrollDelta.pixelDelta (-500) 0]
     (by norm_num) (by norm_num)⟩

/-- Claim C2: `ScrollParent::handle` on a `ChildAttached` event panics
(modelled as `none`) whenever the scrollable slot is already occupied, for
any attached id, incoming child id and current bounds. -/
theorem scrollParent_second_child_panics (s : ScrollParent) (id : WidgetId)
    (cid : Option WidgetId) (wb : Rectangle) (h : s.scrollable = some id) :
    s.handle (ScrollParentEvent.childAttached cid) wb = none := by
  simp [ScrollParent.handle, h]

/-- Claim C2 witness: a parent with child 1 attached panics on attaching
child 2. -/
theorem scrollParent_second_child_panics_witness :
    (ScrollParent.mk (some 1)).scrollable = some 1 ∧
      (ScrollParent.mk (some 1)).handle
        (ScrollParentEvent.childAttached (some 2)) ⟨0, 0, 0, 0⟩ = none :=
  ⟨rfl, scrollParent_second_child_panics (ScrollParent.mk (some 1)) 1 (some 2) ⟨0, 0, 0, 0⟩ rfl⟩

/-- Claim C5: `ScrollContainer::add_child` registers exactly two
initial-position constraints on the child — align-left and align-top against
the parent's layout — both with `WEAK` strength. -/
theorem add_child_two_weak_constraints (parent child : WidgetId) :
    (ScrollContainer.add_child parent child).constraints =
      [{ kind := ConstraintKind.alignLeft, parent := parent, strength := Strength.weak },
       { kind := ConstraintKind.alignTop, parent := parent, strength := Strength.weak }] :=
  rfl

/-- Claim C7: a `WidgetMouseWheel` input event is translated into typed
events: the builder's handler pushes a `ScrollParentEvent::WidgetMouseWheel`
to the widget itself; on receiving it with a child attached, `ScrollParent`
pushes exactly one `WidgetScroll` event (carrying the wheel delta and the
parent's current bounds) targeted at that child; with no child attached it
pushes nothing and does not panic. -/
theorem mouse_wheel_translation :
    (∀ (self_id : WidgetId) (ev : MouseScrollDelta),
        scrollBuilderWheelHandler self_id ev =
          (self_id, ScrollParentEvent.widgetMouseWheel ev)) ∧
    (∀ (s : ScrollParent) (c : WidgetId) (mw : MouseScrollDelta) (wb : Rectangle),
        s.scrollable = some c →
        s.handle (ScrollParentEvent.widgetMouseWheel mw) wb =
          some (s, [{ target := c, event := { event := mw, parent_bounds := wb } }])) ∧
    (∀ (s : ScrollParent) (mw : MouseScrollDelta) (wb : Rectangle),
        s.scrollable = none →
        s.handle (ScrollParentEvent.widgetMouseWheel mw) wb = some (s, [])) := by
  refine ⟨fun _ _ => rfl, fun s c mw wb h => ?_, fun s mw wb h => ?_⟩
  · simp [ScrollParent.handle, h]
  · simp [ScrollParent.handle, h]

/-- Claim C7 witness: the wheel translation at child id 5 and at an empty
slot. -/
theorem mouse_wheel_translation_witness :
    (ScrollParent.mk (some 5)).handle
        (ScrollParentEvent.widgetMouseWheel (MouseScrollDelta.lineDelta 1 2)) ⟨0, 0, 100, 100⟩ =
      some (ScrollParent.mk (some 5),
        [{ target := 5,
           event := { event := MouseScrollDelta.lineDelta 1 2,
                      parent_bounds := ⟨0, 0, 100, 100⟩ } }]) ∧
    (ScrollParent.mk none).handle
        (ScrollParentEvent.widgetMouseWheel (MouseScrollDelta.lineDelta 1 2)) ⟨0, 0, 100, 100⟩ =
      some (ScrollParent.mk none, []) :=
  ⟨mouse_wheel_translation.2.1 (ScrollParent.mk (some 5)) 5
      (MouseScrollDelta.lineDelta 1 2) ⟨0, 0, 100, 100⟩ rfl,
   mouse_wheel_translation.2.2 (ScrollParent.mk none)
      (MouseScrollDelta.lineDelta 1 2) ⟨0, 0, 100, 100⟩ rfl⟩

/-- Claim C8: `ScrollContainer::remove_child` pushes `ChildAttached(None)`
to the parent, and `ScrollParent::handle` panics (modelled as `none`) on any
`ChildAttached` event while the slot is occupied — so the slot is never
cleared without panicking. -/
theorem remove_child_panics_when_occupied (parent c : WidgetId) (s : ScrollParent)
    (wb : Rectangle) (h : s.scrollable = some c) :
    ScrollContainer.remove_child parent =
        (parent, ScrollParentEvent.childAttached none) ∧
      s.handle (ScrollContainer.remove_child parent).2 wb = none := by
  refine ⟨rfl, ?_⟩
  simp [ScrollContainer.remove_child, ScrollParent.handle, h]

/-- Claim C8 witness: removing the sole child 3 of parent 0 panics. -/
theorem remove_child_panics_when_occupied_witness :
    (ScrollParent.mk (some 3)).scrollable = some 3 ∧
      (ScrollContainer.remove_child 0 =
          (0, ScrollParentEvent.childAttached none) ∧
        (ScrollParent.mk (some 3)).handle
          (ScrollContainer.remove_child 0).2 ⟨0, 0, 0, 0⟩ = none) :=
  ⟨rfl, remove_child_panics_when_occupied 0 3 (ScrollParent.mk (some 3)) ⟨0, 0, 0, 0⟩ rfl⟩

/-- Claim C3: `cursor_hit(bounds, point)` returns true exactly when the point
satisfies the ellipse equation `((x-cx)/rx)^2 + ((y-cy)/ry)^2 <= 1` with the
centre at the centre of `bounds` and radii half its dimensions; and for
bounds (left=0, top=0, width=100, height=50) the centre (50, 25) is inside
while the corner (0, 0) is outside. -/
theorem cursor_hit_iff_ellipse_equation :
    (∀ (bounds : Rect) (p : Point),
        cursor_hit bounds p = true ↔
          (p.x - (bounds.left + bounds.width / 2)) ^ 2 / (bounds.width / 2) ^ 2 +
            (p.y - (bounds.top + bounds.height / 2)) ^ 2 / (bounds.height / 2) ^ 2 ≤ 1) ∧
    cursor_hit ⟨⟨0, 0⟩, ⟨100, 50⟩⟩ (Point.new 50 25) = true ∧
    cursor_hit ⟨⟨0, 0⟩, ⟨100, 50⟩⟩ (Point.new 0 0) = false := by
  refine ⟨fun bounds p => ?_, ?_, ?_⟩
  · simp [cursor_hit, point_inside_ellipse, Point.new, Size.new]
  · norm_num [cursor_hit, point_inside_ellipse, Point.new, Size.new,
      Rect.left, Rect.top, Rect.width, Rect.height]
  · norm_num [cursor_hit, point_inside_ellipse, Point.new, Size.new,
      Rect.left, Rect.top, Rect.width, Rect.height]

/-- Claim C4: the frame-ready flag is written with `Ordering::Release` by
`Notifier::wake_up` (storing `true`) and read with `Ordering::Acquire` by
`WebRenderContext::frame_ready`: the respective action traces contain exactly
those atomic operations with those orderings. -/
theorem frame_ready_acquire_release :
    (∀ b : Bool, (Notifier.wake_up b).2 =
        [RenderOp.wakeupProxy, RenderOp.atomicStore true AtomicOrdering.release]) ∧
    (∀ b : Bool, (WebRenderContext.frame_ready b).2.2 =
        [RenderOp.atomicLoad AtomicOrdering.acquire b]) :=
  ⟨fun _ => rfl, fun _ => rfl⟩

/-- Claim C9: `WebRenderContext::frame_ready` is read-only — it returns the
current flag value and leaves the state unchanged, performing a single load —
while `WebRenderContext::update` stores `false` into the flag and then
updates and renders, for either prior flag value. -/
theorem frame_ready_pure_update_resets :
    (∀ b : Bool, WebRenderContext.frame_ready b =
        (b, b, [RenderOp.atomicLoad AtomicOrdering.acquire b])) ∧
    (∀ b : Bool, WebRenderContext.update b =
        (false, [RenderOp.atomicStore false AtomicOrdering.release,
                 RenderOp.rendererUpdate, RenderOp.rendererRender])) :=
  ⟨fun _ => rfl, fun _ => rfl⟩

/-- Claim C6: every display-list primitive pushed by `EllipseState::draw` is
built from the rounded bounds: its rectangle is exactly `bounds.round`, and
its clip rectangle is either `bounds.round` itself or `bounds.round` shrunk
by the border width — never the unrounded input bounds. -/
theorem draw_uses_rounded_bounds (s : EllipseState) (bounds : Rect)
    (p : Primitive) (hp : p ∈ s.draw bounds) :
    p.rect = bounds.round ∧
      (p.clip_rect = bounds.round ∨
        ∃ w : ℚ, p.clip_rect = (bounds.round).shrink_bounds w) := by
  unfold EllipseState.draw at hp
  rcases hb : s.border with _ | ⟨w, c⟩ <;> rw [hb] at hp <;>
    simp only [push_ellipse, List.mem_cons, List.mem_singleton, List.not_mem_nil,
      or_false] at hp
  · subst hp
    exact ⟨rfl, Or.inl rfl⟩
  · rcases hp with hp | hp <;> subst hp
    · exact ⟨rfl, Or.inl rfl⟩
    · exact ⟨rfl, Or.inr ⟨if w < 2 then 2 else w, rfl⟩⟩

/-- Claim C6 witness: the single primitive of a borderless ellipse at
concrete bounds is built from the rounded bounds. -/
theorem draw_uses_rounded_bounds_witness :
    push_ellipse (Rect.round ⟨⟨0, 0⟩, ⟨4, 4⟩⟩) (Rect.round ⟨⟨0, 0⟩, ⟨4, 4⟩⟩) 7 ∈
        EllipseState.draw ⟨7, none⟩ ⟨⟨0, 0⟩, ⟨4, 4⟩⟩ ∧
      ((push_ellipse (Rect.round ⟨⟨0, 0⟩, ⟨4, 4⟩⟩) (Rect.round ⟨⟨0, 0⟩, ⟨4, 4⟩⟩) 7).rect =
          Rect.round ⟨⟨0, 0⟩, ⟨4, 4⟩⟩ ∧
        ((push_ellipse (Rect.round ⟨⟨0, 0⟩, ⟨4, 4⟩⟩)
              (Rect.round ⟨⟨0, 0⟩, ⟨4, 4⟩⟩) 7).clip_rect = Rect.round ⟨⟨0, 0⟩, ⟨4, 4⟩⟩ ∨
          ∃ w : ℚ,
            (push_ellipse (Rect.round ⟨⟨0, 0⟩, ⟨4, 4⟩⟩)
                (Rect.round ⟨⟨0, 0⟩, ⟨4, 4⟩⟩) 7).clip_rect =
              (Rect.round ⟨⟨0, 0⟩, ⟨4, 4⟩⟩).shrink_bounds w)) :=
  ⟨by simp [EllipseState.draw],
   draw_uses_rounded_bounds ⟨7, none⟩ ⟨⟨0, 0⟩, ⟨4, 4⟩⟩ _ (by simp [EllipseState.draw])⟩

/-- Claim C10: with a border of width `w`, `EllipseState::draw` uses the
effective border width `max w 2`: it pushes the border-coloured fill over the
rounded bounds and the background clipped to the rounded bounds shrunk by
`max w 2`, so a border thinner than 2 pixels is never produced. -/
theorem border_width_clamped_to_two (s : EllipseState) (w : ℚ) (c : Color)
    (bounds : Rect) (h : s.border = some (w, c)) :
    s.draw bounds =
      [push_ellipse bounds.round bounds.round c,
       push_ellipse bounds.round (bounds.round.shrink_bounds (max w 2))
         s.background_color] := by
  have hmax : (if w < 2 then (2 : ℚ) else w) = max w 2 := f64_max_eq_max w 2
  simp only [EllipseState.draw, h, hmax]

/-- Claim C10 witness: a requested border of width 1/2 is drawn with the
background clipped to the bounds shrunk by `max (1/2) 2 = 2`. -/
theorem border_width_clamped_to_two_witness :
    (EllipseState.mk 7 (some (1/2, 9))).border = some (1/2, 9) ∧
      (EllipseState.mk 7 (some (1/2, 9))).draw ⟨⟨0, 0⟩, ⟨10, 10⟩⟩ =
        [push_ellipse (Rect.round ⟨⟨0, 0⟩, ⟨10, 10⟩⟩) (Rect.round ⟨⟨0, 0⟩, ⟨10, 10⟩⟩) 9,
         push_ellipse (Rect.round ⟨⟨0, 0⟩, ⟨10, 10⟩⟩)
           ((Rect.round ⟨⟨0, 0⟩, ⟨10, 10⟩⟩).shrink_bounds (max (1/2) 2)) 7] :=
  ⟨rfl, border_width_clamped_to_two (EllipseState.mk 7 (some (1/2, 9))) (1/2) 9
    ⟨⟨0, 0⟩, ⟨10, 10⟩⟩ rfl⟩

end Limn
